import Mathlib

/-!
Verification of the multi-tenant middleware layer and bet-submission logic of
the baby-raffle backend (fastapi-backend/middleware.py, main.py,
raffle_service.py), shallowly embedded in Lean.

Database round-trips are modelled by oracle functions carried in an
environment record; HTTP errors are an explicit error structure mirroring
HTTPException (status code, detail, headers).
-/

namespace BabyRaffle

/-- Mirror of fastapi HTTPException as raised by the middleware: a status
code, a detail message and optional extra headers. -/
structure HErr where
  status : Nat
  detail : String
  headers : List (String × String) := []
deriving DecidableEq

instance {ε α : Type} [DecidableEq ε] [DecidableEq α] : DecidableEq (Except ε α) := fun a b =>
  match a, b with
  | .ok x, .ok y => decidable_of_iff (x = y) (by simp)
  | .ok _, .error _ => isFalse (by simp)
  | .error _, .ok _ => isFalse (by simp)
  | .error e, .error f => decidable_of_iff (e = f) (by simp)

/-- Row of the tenants table as used by the middleware
(models.TenantRecord). -/
structure TenantRecord where
  id : String
  subdomain : String
  status : String
  subscriptionPlan : String
deriving DecidableEq

/-- Row of the users table as used by the middleware (models.UserRecord). -/
structure UserRecord where
  id : String
  tenantId : String
  role : String
  status : String
deriving DecidableEq

/-- Decoded JWT claim set as returned by oauth_service.verify_access_token:
the sub claim and the optional tenant_id claim. -/
structure TokenPayload where
  sub : String
  tenantId : Option String
deriving DecidableEq

/-- The parts of an inbound HTTP request the middleware reads. -/
structure Request where
  host : String
  path : String
  authHeader : Option String
  xForwardedFor : Option String
  xRealIp : Option String
  clientHost : Option String
deriving DecidableEq

/-- External effects of one request: database lookups performed by the
middleware (tenant by subdomain, token verification, user by id) and the
success of the two fire-and-forget database writes. -/
structure Env where
  tenantBySubdomain : String → Option TenantRecord
  verifyToken : String → Option TokenPayload
  userById : String → Option UserRecord
  lastLoginUpdateOk : Bool
  rlsSetOk : Bool

/-! ### String helpers (ASCII models of the str operations the code uses) -/

/-- ASCII lower-casing of one character (str.lower on the host header). -/
def lowerChar (c : Char) : Char :=
  if 65 ≤ c.toNat ∧ c.toNat ≤ 90 then Char.ofNat (c.toNat + 32) else c

/-- ASCII lower-casing of a string. -/
def lowerStr (s : String) : String := String.mk (s.toList.map lowerChar)

/-- Whether a character matches the [a-z0-9] class of the subdomain regex. -/
def isLowerAlnum (c : Char) : Bool :=
  (decide (97 ≤ c.toNat) && decide (c.toNat ≤ 122)) ||
  (decide (48 ≤ c.toNat) && decide (c.toNat ≤ 57))

/-- The subdomain format regex of TenantContextMiddleware.extract_subdomain:
nonempty, all characters in [a-z0-9-], first and last in [a-z0-9]. -/
def validSubdomainChars (cs : List Char) : Bool :=
  match cs with
  | [] => false
  | c :: _ =>
    isLowerAlnum c &&
    cs.all (fun d => isLowerAlnum d || d == '-') &&
    isLowerAlnum (cs.getLastD 'x')

/-- Strip leading and trailing whitespace (str.strip). -/
def trimChars (cs : List Char) : List Char :=
  ((cs.dropWhile Char.isWhitespace).reverse.dropWhile Char.isWhitespace).reverse

/-! ### TenantContextMiddleware -/

def baseDomain : String := "base2ml.com"

def onboardingSubdomain : String := "mybabyraffle"

/-- The character list of the suffix stripped from hosts (.base2ml.com). -/
def baseDomainSuffix : List Char := ('.' :: baseDomain.toList)

/-- TenantContextMiddleware.extract_subdomain: drop the port, require the
.base2ml.com suffix (localhost and raw IPs fall through to none), strip the
suffix and validate the remaining label. -/
def extractSubdomain (host : String) : Option String :=
  if host = "" then none
  else
    let hcs := host.toList.takeWhile (fun c => c != ':')
    if baseDomainSuffix.isSuffixOf hcs then
      let subcs := hcs.take (hcs.length - baseDomainSuffix.length)
      if validSubdomainChars subcs then some (String.mk subcs) else none
    else none

/-- TenantContextMiddleware.get_client_ip: X-Forwarded-For first hop, then
X-Real-IP, then the raw connection address, defaulting to unknown. -/
def getClientIp (req : Request) : String :=
  let fwd := req.xForwardedFor.getD ""
  if fwd ≠ "" then String.mk (trimChars (fwd.toList.takeWhile (fun c => c != ',')))
  else
    let rip := req.xRealIp.getD ""
    if rip ≠ "" then rip
    else req.clientHost.getD "unknown"

/-- The per-request tenant context record attached to request.state. -/
structure TenantContext where
  subdomain : Option String
  tenant : Option TenantRecord
  tenantId : Option String
  isOnboarding : Bool
  isApiRequest : Bool
  ipAddress : String
deriving DecidableEq

def tenantNotFoundErr (sub : String) : HErr :=
  { status := 404, detail := "Tenant not found for subdomain: " ++ sub }

def inactiveTenantErr (st : String) : HErr :=
  { status := 403, detail := "Tenant is " ++ st }

def rlsFailureErr : HErr :=
  { status := 500, detail := "Failed to set tenant context" }

/-- Paths for which resolve_tenant_context skips tenant resolution. -/
def exemptFromResolution (path : String) (isOnboarding : Bool) : Bool :=
  isOnboarding || decide (path ∈ ["/health", "/docs", "/openapi.json", "/"]) ||
  "/static/".toList.isPrefixOf path.toList

/-- TenantContextMiddleware.resolve_tenant_context: build the context from
the lower-cased host, skip resolution for the onboarding site and exempt
paths, otherwise look the tenant up by subdomain: 404 when absent, 403 when
its status is not active, 500 when the RLS set_config write fails. -/
def resolveTenantContext (env : Env) (req : Request) : Except HErr TenantContext :=
  let host := lowerStr req.host
  let sub := extractSubdomain host
  let ctx : TenantContext :=
    { subdomain := sub, tenant := none, tenantId := none,
      isOnboarding := decide (sub = some onboardingSubdomain),
      isApiRequest := "/api/".toList.isPrefixOf req.path.toList,
      ipAddress := getClientIp req }
  if exemptFromResolution req.path ctx.isOnboarding then .ok ctx
  else
    match sub with
    | none => .ok ctx
    | some s =>
      if s = onboardingSubdomain then .ok ctx
      else
        match env.tenantBySubdomain s with
        | none => .error (tenantNotFoundErr s)
        | some tn =>
          if tn.status ≠ "active" then .error (inactiveTenantErr tn.status)
          else if ¬ env.rlsSetOk then .error rlsFailureErr
          else .ok { ctx with tenant := some tn, tenantId := some tn.id }

/-! ### AuthenticationMiddleware -/

/-- AuthenticationMiddleware.public_paths (exact-match set). -/
def publicPaths : List String :=
  ["/health", "/docs", "/openapi.json", "/",
   "/api/auth/login", "/api/auth/callback", "/api/tenant/create",
   "/api/tenant/validate-subdomain"]

def authRequiredErr : HErr :=
  { status := 401, detail := "Authentication required",
    headers := [("WWW-Authenticate", "Bearer")] }

def invalidTokenErr : HErr :=
  { status := 401, detail := "Invalid authentication token" }

def userNotFoundErr : HErr :=
  { status := 401, detail := "User not found or inactive" }

def wrongTenantErr : HErr :=
  { status := 403, detail := "Token not valid for this tenant" }

/-- AuthenticationMiddleware.process_authentication: anonymous on public
paths and on the onboarding site; a missing/non-bearer Authorization header
is 401 on api paths and anonymous elsewhere; then verify the token, load the
active user, reject a tenant claim differing from the resolved context with
403, and perform the last-login update, whose failure is caught by the
generic exception handler and re-raised as a 401. -/
def processAuthentication (env : Env) (req : Request) (ctx : TenantContext) :
    Except HErr (Option UserRecord) :=
  if req.path ∈ publicPaths then .ok none
  else if ctx.isOnboarding then .ok none
  else
    match req.authHeader with
    | none =>
      if "/api/".toList.isPrefixOf req.path.toList then .error authRequiredErr else .ok none
    | some h =>
      if ¬ "Bearer ".toList.isPrefixOf h.toList then
        if "/api/".toList.isPrefixOf req.path.toList then .error authRequiredErr else .ok none
      else
        match env.verifyToken (String.mk (h.toList.drop 7)) with
        | none => .error invalidTokenErr
        | some payload =>
          match env.userById payload.sub with
          | none => .error userNotFoundErr
          | some user =>
            match ctx.tenantId with
            | some rt =>
              if rt ≠ "" ∧ payload.tenantId ≠ some rt then .error wrongTenantErr
              else if env.lastLoginUpdateOk then .ok (some user)
              else .error invalidTokenErr
            | none =>
              if env.lastLoginUpdateOk then .ok (some user)
              else .error invalidTokenErr

/-- The auth middleware wrapper of main.py (auth_middleware_handler): any
HTTPException from process_authentication is caught and the request state
user is set to none; the next middleware always runs. -/
def authMiddlewareUser (env : Env) (req : Request) (ctx : TenantContext) :
    Option UserRecord :=
  match processAuthentication env req ctx with
  | .ok u => u
  | .error _ => none

/-- The context the middleware reads when request.state.tenant_context is
not yet set: getattr defaults to the empty dict, on which every .get yields
None and ip_address defaults to unknown. This is what the rate limiter and
the auth wrapper actually receive at runtime, since they execute before the
tenant resolver (see runtimePipeline). -/
def emptyCtx : TenantContext :=
  { subdomain := none, tenant := none, tenantId := none,
    isOnboarding := false, isApiRequest := false, ipAddress := "unknown" }

/-! ### RateLimitMiddleware -/

/-- One tier of the rate_limits table: requests per minute and per hour. -/
structure Limits where
  requestsPerMinute : Nat
  requestsPerHour : Nat
deriving DecidableEq

/-- RateLimitMiddleware.rate_limits. -/
def rateLimitsTable : List (String × Limits) :=
  [("free", ⟨100, 1000⟩), ("premium", ⟨500, 5000⟩), ("enterprise", ⟨2000, 20000⟩)]

/-- Tier lookup with the free tier as the dict.get default. -/
def limitsForPlan (plan : String) : Limits :=
  ((rateLimitsTable.find? (fun p => p.1 == plan)).map Prod.snd).getD ⟨100, 1000⟩

/-- The stricter limits used when no tenant is resolved. -/
def anonymousLimits : Limits := ⟨50, 200⟩

/-- A key of the in-memory store: the keyspace tag (true for ip keys, false
for tenant keys), the subject, and the trailing bucket index, mirroring the
f-string key ip-or-tenant colon subject colon bucket. -/
structure RKey where
  isIp : Bool
  subject : String
  bucket : Nat
deriving DecidableEq

/-- The process-wide memory_store dict, as an insertion-ordered association
list with unique keys. -/
abbrev Store := List (RKey × Nat)

/-- dict.get with default 0. -/
def storeGet : Store → RKey → Nat
  | [], _ => 0
  | (k1, v) :: rest, k => if k1 = k then v else storeGet rest k

/-- dict assignment: replace the entry in place, or append a new one. -/
def storeSet : Store → RKey → Nat → Store
  | [], k, v => [(k, v)]
  | (k1, v1) :: rest, k, v =>
    if k1 = k then (k, v) :: rest else (k1, v1) :: storeSet rest k v

def minuteLimitErr : HErr :=
  { status := 429, detail := "Rate limit exceeded (per minute)",
    headers := [("Retry-After", "60")] }

def hourLimitErr : HErr :=
  { status := 429, detail := "Rate limit exceeded (per hour)",
    headers := [("Retry-After", "3600")] }

def tenantMinuteErr : HErr :=
  { status := 429, detail := "Tenant rate limit exceeded (per minute)" }

def tenantHourErr : HErr :=
  { status := 429, detail := "Tenant rate limit exceeded (per hour)" }

/-- The TTL cleanup at the end of _check_ip_rate_limit: when the store holds
more than 10000 entries, drop every key whose trailing segment is below the
current epoch second minus 3600. -/
def cleanupPass (t : Nat) (s : Store) : Store :=
  if 10000 < s.length then
    s.filter (fun p => ¬ ((p.1.bucket : Int) < (t : Int) - 3600))
  else s

/-- RateLimitMiddleware._check_ip_rate_limit at epoch second t: read the
minute and hour counters, reject on the minute threshold first, then the
hour threshold, otherwise write back both counters incremented (the hour
count was read before the minute write) and run the cleanup pass. -/
def checkIpRateLimit (ip : String) (lims : Limits) (t : Nat) (s : Store) :
    Except HErr Store :=
  if lims.requestsPerMinute ≤ storeGet s ⟨true, ip, t / 60⟩ then .error minuteLimitErr
  else if lims.requestsPerHour ≤ storeGet s ⟨true, ip, t / 3600⟩ then .error hourLimitErr
  else .ok (cleanupPass t
    (storeSet (storeSet s ⟨true, ip, t / 60⟩ (storeGet s ⟨true, ip, t / 60⟩ + 1))
      ⟨true, ip, t / 3600⟩ (storeGet s ⟨true, ip, t / 3600⟩ + 1)))

/-- RateLimitMiddleware._check_tenant_rate_limit: like the ip check but with
doubled thresholds, no Retry-After headers on the errors, and no cleanup. -/
def checkTenantRateLimit (tid : String) (lims : Limits) (t : Nat) (s : Store) :
    Except HErr Store :=
  if lims.requestsPerMinute * 2 ≤ storeGet s ⟨false, tid, t / 60⟩ then .error tenantMinuteErr
  else if lims.requestsPerHour * 2 ≤ storeGet s ⟨false, tid, t / 3600⟩ then .error tenantHourErr
  else .ok
    (storeSet (storeSet s ⟨false, tid, t / 60⟩ (storeGet s ⟨false, tid, t / 60⟩ + 1))
      ⟨false, tid, t / 3600⟩ (storeGet s ⟨false, tid, t / 3600⟩ + 1))

/-- RateLimitMiddleware.check_rate_limit: health and root paths are exempt;
the tier comes from the tenant plan of the context (or the anonymous tier);
the ip counters are checked first, then the tenant counters when the
context carries a tenant. The store is shared mutable state, so the ip
increments persist even when the tenant check then raises; the result pairs
the store as left behind with the raised error, if any. -/
def checkRateLimitState (req : Request) (ctx : TenantContext) (t : Nat) (s : Store) :
    Store × Option HErr :=
  if req.path ∈ ["/health", "/"] then (s, none)
  else
    let lims := match ctx.tenant with
      | some tn => limitsForPlan tn.subscriptionPlan
      | none => anonymousLimits
    match checkIpRateLimit ctx.ipAddress lims t s with
    | .error e => (s, some e)
    | .ok s1 =>
      match ctx.tenant with
      | some tn =>
        match checkTenantRateLimit tn.id lims t s1 with
        | .error e => (s1, some e)
        | .ok s2 => (s2, none)
      | none => (s1, none)

/-- Iterated ip rate-limit checks (a sequence of requests from one client
within one clock second), stopping at the first rejection. -/
def iterCheckIp (ip : String) (lims : Limits) (t : Nat) : Nat → Store → Except HErr Store
  | 0, s => .ok s
  | n + 1, s =>
    match iterCheckIp ip lims t n s with
    | .error e => .error e
    | .ok s1 => checkIpRateLimit ip lims t s1

/-- The store produced by k permitted requests from one ip within one clock
second, starting from the empty store: both bucket counters sit at k. -/
def ipPairStore (ip : String) (t : Nat) (k : Nat) : Store :=
  [(⟨true, ip, t / 60⟩, k), (⟨true, ip, t / 3600⟩, k)]

/-! ### Role authorization (require_role) -/

/-- The role_hierarchy dict with its dict.get default of 0. -/
def roleHierarchy (r : String) : Nat :=
  if r = "owner" then 3 else if r = "admin" then 2 else if r = "user" then 1 else 0

def roleForbiddenErr (requiredRole : String) : HErr :=
  { status := 403, detail := "Role " ++ requiredRole ++ " or higher required" }

/-- The comparison inside the role_checker closure built by require_role:
reject when the user level is below the required level, otherwise pass the
user through. This models only the inner comparison logic; the source never
delivers a UserRecord to it (see roleCheckerRuntime). -/
def roleChecker (requiredRole : String) (user : UserRecord) : Except HErr UserRecord :=
  if roleHierarchy user.role < roleHierarchy requiredRole then
    .error (roleForbiddenErr requiredRole)
  else .ok user

/-- What the user parameter of role_checker is bound to at a call: a
UserRecord when one is passed explicitly, or the declared default, which in
middleware.py is the require_user function object itself (the Depends
wrapper is missing). -/
inductive RoleCheckerArg where
  | user (u : UserRecord)
  | defaultRequireUserFn
deriving DecidableEq

/-- The 500 produced when role_checker evaluates user.role on its default:
the require_user function object has no role attribute, the AttributeError
escapes the dependency and surfaces as an internal server error. -/
def attributeErrorErr : HErr :=
  { status := 500, detail := "AttributeError: function require_user has no attribute role" }

/-- role_checker as actually written in middleware.py: only an explicitly
passed UserRecord reaches the hierarchy comparison; invoked through its
declared default (the only way the fastapi wiring could call it, and even
that is unreachable because require_role is itself async so Depends would
receive a coroutine), user is the require_user function object and the
user.role access raises AttributeError, surfacing as a 500 and never the
403 of the comparison. -/
def roleCheckerRuntime (requiredRole : String) : RoleCheckerArg → Except HErr UserRecord
  | .user u => roleChecker requiredRole u
  | .defaultRequireUserFn => .error attributeErrorErr

/-! ### RaffleService.submit_bets -/

/-- Row of raffle_categories as read by submit_bets. -/
structure RaffleCategory where
  id : String
  tenantId : String
  categoryName : String
  betPrice : Int
  isActive : Bool
deriving DecidableEq

/-- One bet of a submission (models.BetCreate). -/
structure BetCreate where
  categoryId : String
  betValue : String
  amount : Int
deriving DecidableEq

/-- models.BetSubmission. -/
structure BetSubmission where
  userName : String
  userEmail : String
  bets : List BetCreate
deriving DecidableEq

/-- Row of the bets table as inserted by submit_bets. -/
structure BetRow where
  tenantId : String
  categoryId : String
  userName : String
  userEmail : String
  betValue : String
  amount : Int
deriving DecidableEq

/-- The tenant-scoped slice of the database submit_bets touches. -/
structure RaffleDB where
  categories : List RaffleCategory
  bets : List BetRow
deriving DecidableEq

/-- The category lookup of submit_bets (by id and tenant id). -/
def findCategory (db : RaffleDB) (tid cid : String) : Option RaffleCategory :=
  db.categories.find? (fun c => c.id == cid && c.tenantId == tid)

def categoryNotFoundErr (cid : String) : HErr :=
  { status := 400, detail := "Category not found: " ++ cid }

def categoryInactiveErr (nm : String) : HErr :=
  { status := 400, detail := "Category " ++ nm ++ " is not active" }

def amountMismatchErr : HErr :=
  { status := 400, detail := "Bet amount must match the category price" }

/-- The bets row built for one bet of a submission. -/
def mkBetRow (tid : String) (sub : BetSubmission) (b : BetCreate) : BetRow :=
  ⟨tid, b.categoryId, sub.userName, sub.userEmail, b.betValue, b.amount⟩

/-- The loop body of submit_bets inside the transaction: validate each bet
against its category (present, active, amount equal to the price) and insert
its row; the first failing bet aborts with a 400. -/
def insertBetsLoop (tid : String) (sub : BetSubmission) :
    List BetCreate → RaffleDB → Except HErr RaffleDB
  | [], db => .ok db
  | b :: rest, db =>
    match findCategory db tid b.categoryId with
    | none => .error (categoryNotFoundErr b.categoryId)
    | some c =>
      if ¬ c.isActive then .error (categoryInactiveErr c.categoryName)
      else if b.amount ≠ c.betPrice then .error amountMismatchErr
      else insertBetsLoop tid sub rest
        { db with bets := db.bets ++ [mkBetRow tid sub b] }

/-- RaffleService.submit_bets with transaction semantics: on success the new
database state is committed; on an error the transaction rolls back and the
database is unchanged, with the error reported. -/
def submitBets (tid : String) (sub : BetSubmission) (db : RaffleDB) :
    RaffleDB × Option HErr :=
  match insertBetsLoop tid sub sub.bets db with
  | .ok db2 => (db2, none)
  | .error e => (db, some e)

/-- Whether one bet passes the validation submit_bets performs against the
given database state. -/
def validBet (db : RaffleDB) (tid : String) (b : BetCreate) : Bool :=
  match findCategory db tid b.categoryId with
  | some c => c.isActive && b.amount == c.betPrice
  | none => false

/-! ### The composed middleware pipeline of main.py -/

/-- The request outcome seen from the middleware layer: an error response
serialized by the outer exception handler, or the handler running with the
authenticated user state. -/
inductive Outcome where
  | errorResp (e : HErr)
  | handled (user : Option UserRecord)
deriving DecidableEq

/-- Result of running the middleware chain: the outcome, the rate-limit
store afterwards, and whether the route handler ran. -/
structure PipelineResult where
  outcome : Outcome
  store : Store
  handlerRan : Bool
deriving DecidableEq

/-- The middleware chain of main.py as it executes at runtime. Each
app.middleware http decorator calls add_middleware, which inserts at the
front of the stack, so the last-registered handler is outermost and the
execution order is the reverse of the declaration order: the rate limiter
first, then the auth wrapper, then the tenant resolver, then the handler.
The two outer layers therefore read request.state.tenant_context before the
resolver has set it, getting the empty-dict default (emptyCtx): the rate
limiter runs on the anonymous tier keyed by the unknown ip, and the auth
wrapper authenticates without a tenant id (so its cross-tenant check is
skipped) and swallows any failure into a none user. A rate-limiter or
resolver failure is serialized and stops the request before the handler. -/
def runtimePipeline (env : Env) (req : Request) (t : Nat) (s : Store) : PipelineResult :=
  match checkRateLimitState req emptyCtx t s with
  | (s1, some e) => ⟨.errorResp e, s1, false⟩
  | (s1, none) =>
    let user := authMiddlewareUser env req emptyCtx
    match resolveTenantContext env req with
    | .error e => ⟨.errorResp e, s1, false⟩
    | .ok _ => ⟨.handled user, s1, true⟩

/-! ### Concrete inputs used by witnesses and counterexamples -/

/-- A concrete environment: an active tenant acme, a suspended tenant dead,
one active admin user, and two tokens: tokA bound to a foreign tenant tA and
tokAcme bound to acme. Both fire-and-forget writes succeed. -/
def demoEnv : Env :=
  { tenantBySubdomain := fun s =>
      if s = "acme" then some ⟨"t-acme", "acme", "active", "free"⟩
      else if s = "dead" then some ⟨"t-dead", "dead", "suspended", "free"⟩
      else none,
    verifyToken := fun tok =>
      if tok = "tokA" then some ⟨"u1", some "tA"⟩
      else if tok = "tokAcme" then some ⟨"u1", some "t-acme"⟩
      else none,
    userById := fun uid =>
      if uid = "u1" then some ⟨"u1", "t-acme", "admin", "active"⟩ else none,
    lastLoginUpdateOk := true,
    rlsSetOk := true }

/-- demoEnv with the last-login UPDATE failing. -/
def demoEnvNoLastLogin : Env := { demoEnv with lastLoginUpdateOk := false }

/-- A request to a protected api path on a development host with no
Authorization header. -/
def reqNoAuth : Request :=
  { host := "localhost", path := "/api/tenant/info", authHeader := none,
    xForwardedFor := none, xRealIp := none, clientHost := none }

/-- A subdomain-availability request, lacking a token. -/
def reqValidateSub : Request :=
  { host := "localhost", path := "/api/tenant/validate-subdomain/acme",
    authHeader := none, xForwardedFor := none, xRealIp := none, clientHost := none }

/-- A request to acme with the token bound to acme. -/
def reqAcme : Request :=
  { host := "acme.base2ml.com", path := "/api/tenant/info",
    authHeader := some "Bearer tokAcme",
    xForwardedFor := some "203.0.113.9", xRealIp := none, clientHost := none }

/-- A request to the suspended tenant dead, carrying a valid token. -/
def reqDead : Request :=
  { host := "dead.base2ml.com", path := "/api/tenant/info",
    authHeader := some "Bearer tokAcme",
    xForwardedFor := some "203.0.113.9", xRealIp := none, clientHost := none }

/-- A request to acme presenting the token bound to the foreign tenant tA. -/
def reqAcmeForeign : Request :=
  { host := "acme.base2ml.com", path := "/api/tenant/info",
    authHeader := some "Bearer tokA",
    xForwardedFor := some "203.0.113.9", xRealIp := none, clientHost := none }

/-- The tenant context resolveTenantContext produces for requests to acme in
demoEnv. -/
def ctxAcme : TenantContext :=
  { subdomain := some "acme",
    tenant := some ⟨"t-acme", "acme", "active", "free"⟩,
    tenantId := some "t-acme",
    isOnboarding := false, isApiRequest := true, ipAddress := "203.0.113.9" }

/-- A request to a subdomain no tenant owns. -/
def reqGhost : Request :=
  { host := "ghost.base2ml.com", path := "/api/tenant/info",
    authHeader := some "Bearer tokAcme",
    xForwardedFor := some "203.0.113.9", xRealIp := none, clientHost := none }

/-- A store in which the anonymous-tier minute counter of the unknown ip
key sits at its threshold of 50 for the minute bucket of epoch second 3662. -/
def saturatedStore : Store := [(⟨true, "unknown", 61⟩, 50)]

/-- A three-category raffle database for tenant acme: two active categories
priced 5 and one inactive category. -/
def demoDB : RaffleDB :=
  { categories :=
      [⟨"cat1", "t-acme", "Birth Weight", 5, true⟩,
       ⟨"cat2", "t-acme", "Birth Date", 5, true⟩,
       ⟨"cat3", "t-acme", "Eye Color", 5, false⟩],
    bets := [] }

/-- A submission of three valid bets of 5 each. -/
def demoSubValid : BetSubmission :=
  { userName := "Pat", userEmail := "pat@example.com",
    bets := [⟨"cat1", "8 lbs", 5⟩, ⟨"cat2", "March 1", 5⟩, ⟨"cat1", "7 lbs", 5⟩] }

/-- A submission whose middle bet references the inactive category. -/
def demoSubInvalid : BetSubmission :=
  { userName := "Pat", userEmail := "pat@example.com",
    bets := [⟨"cat1", "8 lbs", 5⟩, ⟨"cat3", "Blue", 5⟩, ⟨"cat2", "March 1", 5⟩] }

/-! ### Helper lemmas about the counter store -/

theorem storeGet_storeSet_self (s : Store) (k : RKey) (v : Nat) :
    storeGet (storeSet s k v) k = v := by
  induction s with
  | nil => simp [storeSet, storeGet]
  | cons q rest ih =>
    obtain ⟨k1, v1⟩ := q
    by_cases h : k1 = k
    · simp [storeSet, storeGet, h]
    · simp [storeSet, storeGet, h, ih]

theorem storeGet_storeSet_ne (s : Store) (k k2 : RKey) (v : Nat) (h : k ≠ k2) :
    storeGet (storeSet s k v) k2 = storeGet s k2 := by
  induction s with
  | nil => simp [storeSet, storeGet, h]
  | cons q rest ih =>
    obtain ⟨k1, v1⟩ := q
    by_cases h1 : k1 = k
    · subst h1; simp [storeSet, storeGet, h]
    · simp [storeSet, storeGet, h1, ih]

theorem mem_storeSet {s : Store} {k : RKey} {v : Nat} {p : RKey × Nat}
    (hp : p ∈ storeSet s k v) : p.1 = k ∨ p ∈ s := by
  induction s with
  | nil =>
    simp [storeSet] at hp
    subst hp; left; rfl
  | cons q rest ih =>
    obtain ⟨k1, v1⟩ := q
    by_cases h1 : k1 = k
    · simp [storeSet, h1] at hp
      rcases hp with hp | hp
      · subst hp; left; rfl
      · right; simp [hp]
    · simp [storeSet, h1] at hp
      rcases hp with hp | hp
      · right; simp [hp]
      · rcases ih hp with h | h
        · left; exact h
        · right; simp [h]

theorem minuteKey_ne_hourKey {b : Bool} {ip : String} {t : Nat} (ht : 60 ≤ t) :
    (⟨b, ip, t / 60⟩ : RKey) ≠ ⟨b, ip, t / 3600⟩ := by
  intro h
  have : t / 60 = t / 3600 := congrArg RKey.bucket h
  omega

/-- One permitted ip check from the two-entry state with both counters at k
advances both counters to k + 1. -/
theorem checkIp_pair_step (ip : String) (lims : Limits) (t k : Nat)
    (ht : 60 ≤ t) (hm : k < lims.requestsPerMinute) (hh : k < lims.requestsPerHour) :
    checkIpRateLimit ip lims t (ipPairStore ip t k) = .ok (ipPairStore ip t (k + 1)) := by
  have hne := @minuteKey_ne_hourKey true ip t ht
  have hne2 : t / 60 ≠ t / 3600 := by
    intro h; exact hne (by simp [h])
  have hgm : storeGet (ipPairStore ip t k) ⟨true, ip, t / 60⟩ = k := by
    simp [ipPairStore, storeGet]
  have hgh : storeGet (ipPairStore ip t k) ⟨true, ip, t / 3600⟩ = k := by
    simp [ipPairStore, storeGet, RKey.mk.injEq, hne2]
  unfold checkIpRateLimit
  rw [hgm, hgh, if_neg (by omega), if_neg (by omega)]
  have hset : storeSet (storeSet (ipPairStore ip t k) ⟨true, ip, t / 60⟩ (k + 1))
      ⟨true, ip, t / 3600⟩ (k + 1) = ipPairStore ip t (k + 1) := by
    simp [ipPairStore, storeSet, RKey.mk.injEq, hne2]
  rw [hset]
  simp [cleanupPass, ipPairStore]

/-- k permitted requests from the empty store leave both counters at k. -/
theorem iterCheckIp_pair (ip : String) (lims : Limits) (t : Nat) (ht : 60 ≤ t) :
    ∀ k, 0 < k → k ≤ lims.requestsPerMinute → k ≤ lims.requestsPerHour →
      iterCheckIp ip lims t k [] = .ok (ipPairStore ip t k) := by
  intro k
  induction k with
  | zero => omega
  | succ n ih =>
    intro _ hm hh
    cases n with
    | zero =>
      have hne : t / 60 ≠ t / 3600 := by omega
      simp only [iterCheckIp]
      unfold checkIpRateLimit
      have h0m : storeGet ([] : Store) ⟨true, ip, t / 60⟩ = 0 := rfl
      have h0h : storeGet ([] : Store) ⟨true, ip, t / 3600⟩ = 0 := rfl
      rw [h0m, h0h, if_neg (by omega), if_neg (by omega)]
      simp [storeSet, ipPairStore, RKey.mk.injEq, hne, cleanupPass]
    | succ m =>
      show (match iterCheckIp ip lims t (m + 1) [] with
        | .error e => Except.error e
        | .ok s1 => checkIpRateLimit ip lims t s1) =
        Except.ok (ipPairStore ip t (m + 1 + 1))
      rw [ih (by omega) (by omega) (by omega)]
      exact checkIp_pair_step ip lims t (m + 1) ht (by omega) (by omega)

/-- Every error the ip rate-limit check raises is a 429. -/
theorem checkIpRateLimit_error_status {ip : String} {lims : Limits} {t : Nat}
    {s : Store} {e : HErr} (h : checkIpRateLimit ip lims t s = .error e) :
    e.status = 429 := by
  unfold checkIpRateLimit at h
  split at h
  · injection h with h2; rw [← h2]; rfl
  · split at h
    · injection h with h2; rw [← h2]; rfl
    · simp at h

/-- Every error the tenant rate-limit check raises is a 429. -/
theorem checkTenantRateLimit_error_status {tid : String} {lims : Limits} {t : Nat}
    {s : Store} {e : HErr} (h : checkTenantRateLimit tid lims t s = .error e) :
    e.status = 429 := by
  unfold checkTenantRateLimit at h
  split at h
  · injection h with h2; rw [← h2]; rfl
  · split at h
    · injection h with h2; rw [← h2]; rfl
    · simp at h

/-- Every error check_rate_limit raises is a 429. -/
theorem checkRateLimitState_error_status {req : Request} {ctx : TenantContext}
    {t : Nat} {s s1 : Store} {e : HErr}
    (h : checkRateLimitState req ctx t s = (s1, some e)) : e.status = 429 := by
  unfold checkRateLimitState at h
  split at h
  · simp at h
  · cases hten : ctx.tenant with
    | some tn =>
      simp only [hten] at h
      cases hip : checkIpRateLimit ctx.ipAddress (limitsForPlan tn.subscriptionPlan) t s with
      | error e2 =>
        simp only [hip] at h
        injection h with h1 h2
        injection h2 with h3
        rw [← h3]
        exact checkIpRateLimit_error_status hip
      | ok s2 =>
        simp only [hip] at h
        cases htn2 : checkTenantRateLimit tn.id (limitsForPlan tn.subscriptionPlan) t s2 with
        | error e2 =>
          simp only [htn2] at h
          injection h with h1 h2
          injection h2 with h3
          rw [← h3]
          exact checkTenantRateLimit_error_status htn2
        | ok s3 =>
          simp only [htn2] at h
          simp at h
    | none =>
      simp only [hten] at h
      cases hip : checkIpRateLimit ctx.ipAddress anonymousLimits t s with
      | error e2 =>
        simp only [hip] at h
        injection h with h1 h2
        injection h2 with h3
        rw [← h3]
        exact checkIpRateLimit_error_status hip
      | ok s2 =>
        simp only [hip] at h
        simp at h

/-! ### Claim theorems: rate limiting -/

/-- C5: for a key with per-minute quota N (and an hour quota above it, as in
every configured tier), the first N requests in one minute bucket are each
permitted and advance the counter by one, the N+1-th request in the same
bucket is rejected with 429 and Retry-After 60, the first request in the
following minute bucket is permitted again, and a minute violation is
reported regardless of the hour counter (minute checked before hour). -/
theorem c5_minute_window_quota (ip : String) (lims : Limits) (t tn : Nat)
    (hpm : 0 < lims.requestsPerMinute)
    (hph : lims.requestsPerMinute < lims.requestsPerHour)
    (ht : 60 ≤ t)
    (hnext : tn / 60 = t / 60 + 1) :
    (∀ k, 0 < k → k ≤ lims.requestsPerMinute →
       iterCheckIp ip lims t k [] = .ok (ipPairStore ip t k))
    ∧ iterCheckIp ip lims t (lims.requestsPerMinute + 1) [] = .error minuteLimitErr
    ∧ minuteLimitErr.status = 429
    ∧ minuteLimitErr.headers = [("Retry-After", "60")]
    ∧ (∃ s2, checkIpRateLimit ip lims tn (ipPairStore ip t lims.requestsPerMinute) = .ok s2)
    ∧ (∀ s : Store, lims.requestsPerMinute ≤ storeGet s ⟨true, ip, t / 60⟩ →
        checkIpRateLimit ip lims t s = .error minuteLimitErr) := by
  have hfirst : ∀ k, 0 < k → k ≤ lims.requestsPerMinute →
      iterCheckIp ip lims t k [] = .ok (ipPairStore ip t k) :=
    fun k hk hkm => iterCheckIp_pair ip lims t ht k hk hkm (by omega)
  have hminute : ∀ s : Store, lims.requestsPerMinute ≤ storeGet s ⟨true, ip, t / 60⟩ →
      checkIpRateLimit ip lims t s = .error minuteLimitErr := by
    intro s hge
    unfold checkIpRateLimit
    rw [if_pos hge]
  refine ⟨hfirst, ?_, rfl, rfl, ?_, hminute⟩
  · show (match iterCheckIp ip lims t lims.requestsPerMinute [] with
      | .error e => Except.error e
      | .ok s1 => checkIpRateLimit ip lims t s1) = Except.error minuteLimitErr
    rw [hfirst lims.requestsPerMinute hpm le_rfl]
    exact hminute _ (by simp [ipPairStore, storeGet])
  · have hm0 : storeGet (ipPairStore ip t lims.requestsPerMinute)
        ⟨true, ip, tn / 60⟩ = 0 := by
      simp [ipPairStore, storeGet, RKey.mk.injEq,
        show ¬ t / 60 = tn / 60 by omega, show ¬ t / 3600 = tn / 60 by omega]
    have hh0 : storeGet (ipPairStore ip t lims.requestsPerMinute)
        ⟨true, ip, tn / 3600⟩ < lims.requestsPerHour := by
      by_cases heq : t / 3600 = tn / 3600
      · rw [show storeGet (ipPairStore ip t lims.requestsPerMinute)
            ⟨true, ip, tn / 3600⟩ = lims.requestsPerMinute by
          simp [ipPairStore, storeGet, RKey.mk.injEq,
            show ¬ t / 60 = tn / 3600 by omega, heq]]
        omega
      · rw [show storeGet (ipPairStore ip t lims.requestsPerMinute)
            ⟨true, ip, tn / 3600⟩ = 0 by
          simp [ipPairStore, storeGet, RKey.mk.injEq,
            show ¬ t / 60 = tn / 3600 by omega, heq]]
        omega
    unfold checkIpRateLimit
    rw [hm0, if_neg (by omega), if_neg (by omega)]
    exact ⟨_, rfl⟩

/-- Witness for C5 at the concrete quota 2 per minute, 3 per hour, epoch
second 120 and next-bucket second 180. -/
theorem c5_minute_window_quota_witness :
    iterCheckIp "9.9.9.9" ⟨2, 3⟩ 120 2 [] = .ok (ipPairStore "9.9.9.9" 120 2)
    ∧ iterCheckIp "9.9.9.9" ⟨2, 3⟩ 120 3 [] = .error minuteLimitErr
    ∧ (∃ s2, checkIpRateLimit "9.9.9.9" ⟨2, 3⟩ 180 (ipPairStore "9.9.9.9" 120 2) = .ok s2) := by
  have h := c5_minute_window_quota "9.9.9.9" ⟨2, 3⟩ 120 180
    (by decide) (by decide) (by decide) (by decide)
  exact ⟨h.1 2 (by decide) (by decide), h.2.1, h.2.2.2.2.1⟩

/-- C10: for a modern epoch second (3662 or later) and a store whose keys
are genuine bucket indices (all at most the current minute bucket), a
permitted ip check increments both counters, and whenever the incremented
store holds more than 10000 entries the cleanup pass deletes every entry,
including the two counters just incremented; hence the store retains at most
10000 entries after the check, with every count reset to zero at a wipe. -/
theorem c10_cleanup_wipes (ip : String) (lims : Limits) (t : Nat) (s : Store)
    (ht : 3662 ≤ t)
    (hb : ∀ p ∈ s, p.1.bucket ≤ t / 60)
    (hm : storeGet s ⟨true, ip, t / 60⟩ < lims.requestsPerMinute)
    (hh : storeGet s ⟨true, ip, t / 3600⟩ < lims.requestsPerHour) :
    ∃ s2 : Store,
      checkIpRateLimit ip lims t s = .ok (cleanupPass t s2)
      ∧ storeGet s2 ⟨true, ip, t / 60⟩ = storeGet s ⟨true, ip, t / 60⟩ + 1
      ∧ storeGet s2 ⟨true, ip, t / 3600⟩ = storeGet s ⟨true, ip, t / 3600⟩ + 1
      ∧ (10000 < s2.length → cleanupPass t s2 = [])
      ∧ (cleanupPass t s2).length ≤ 10000 := by
  have hne : (⟨true, ip, t / 60⟩ : RKey) ≠ ⟨true, ip, t / 3600⟩ :=
    minuteKey_ne_hourKey (by omega)
  refine ⟨storeSet (storeSet s ⟨true, ip, t / 60⟩ (storeGet s ⟨true, ip, t / 60⟩ + 1))
      ⟨true, ip, t / 3600⟩ (storeGet s ⟨true, ip, t / 3600⟩ + 1), ?_, ?_, ?_, ?_, ?_⟩
  case _ =>
    unfold checkIpRateLimit
    rw [if_neg (by omega), if_neg (by omega)]
  case _ =>
    rw [storeGet_storeSet_ne _ _ _ _ (Ne.symm hne), storeGet_storeSet_self]
  case _ =>
    rw [storeGet_storeSet_self]
  all_goals
    have hwipe : 10000 < (storeSet (storeSet s ⟨true, ip, t / 60⟩
          (storeGet s ⟨true, ip, t / 60⟩ + 1)) ⟨true, ip, t / 3600⟩
          (storeGet s ⟨true, ip, t / 3600⟩ + 1)).length →
        cleanupPass t (storeSet (storeSet s ⟨true, ip, t / 60⟩
          (storeGet s ⟨true, ip, t / 60⟩ + 1)) ⟨true, ip, t / 3600⟩
          (storeGet s ⟨true, ip, t / 3600⟩ + 1)) = [] := by
      intro hlen
      unfold cleanupPass
      rw [if_pos hlen]
      rw [List.filter_eq_nil_iff]
      intro p hp
      have hbp : p.1.bucket ≤ t / 60 := by
        rcases mem_storeSet hp with h1 | hp1
        · rw [h1]
          show t / 3600 ≤ t / 60
          omega
        · rcases mem_storeSet hp1 with h2 | hp2
          · rw [h2]
          · exact hb p hp2
      simp only [Bool.not_eq_false, decide_eq_true_eq]
      omega
  case _ => exact hwipe
  case _ =>
    by_cases hlen : 10000 < (storeSet (storeSet s ⟨true, ip, t / 60⟩
        (storeGet s ⟨true, ip, t / 60⟩ + 1)) ⟨true, ip, t / 3600⟩
        (storeGet s ⟨true, ip, t / 3600⟩ + 1)).length
    · rw [hwipe hlen]; simp
    · unfold cleanupPass
      rw [if_neg hlen]
      omega

/-- Witness for C10 at epoch second 3662 starting from the empty store. -/
theorem c10_cleanup_wipes_witness :
    ∃ s2 : Store,
      checkIpRateLimit "8.8.8.8" ⟨1, 1⟩ 3662 [] = .ok (cleanupPass 3662 s2)
      ∧ storeGet s2 ⟨true, "8.8.8.8", 3662 / 60⟩ =
          storeGet ([] : Store) ⟨true, "8.8.8.8", 3662 / 60⟩ + 1
      ∧ storeGet s2 ⟨true, "8.8.8.8", 3662 / 3600⟩ =
          storeGet ([] : Store) ⟨true, "8.8.8.8", 3662 / 3600⟩ + 1
      ∧ (10000 < s2.length → cleanupPass 3662 s2 = [])
      ∧ (cleanupPass 3662 s2).length ≤ 10000 :=
  c10_cleanup_wipes "8.8.8.8" ⟨1, 1⟩ 3662 []
    (by decide) (by simp) (by decide) (by decide)

/-- C8 fails as stated: a tenant-keyed minute rejection is a 429 whose
headers carry no Retry-After at all, shown here at a concrete store holding
a tenant minute counter at its doubled threshold. -/
theorem c8_tenant_retry_after_missing :
    checkTenantRateLimit "t-acme" ⟨1, 1⟩ 3662 [(⟨false, "t-acme", 61⟩, 2)] = .error tenantMinuteErr
    ∧ tenantMinuteErr.status = 429
    ∧ tenantMinuteErr.headers = [] := by
  refine ⟨?_, rfl, rfl⟩
  rfl

/-- C8 amended: ip-keyed rejections return 429 with Retry-After 60 for the
minute window and 3600 for the hour window, while tenant-keyed rejections
return 429 with no Retry-After header. -/
theorem c8_amended_retry_after (ip tid : String) (lims : Limits) (t : Nat) (s : Store) :
    (∀ e, checkIpRateLimit ip lims t s = .error e →
       e.status = 429 ∧
       ((e = minuteLimitErr ∧ e.headers = [("Retry-After", "60")]) ∨
        (e = hourLimitErr ∧ e.headers = [("Retry-After", "3600")])))
    ∧ (∀ e, checkTenantRateLimit tid lims t s = .error e →
       e.status = 429 ∧ e.headers = []) := by
  constructor
  · intro e he
    unfold checkIpRateLimit at he
    split at he
    · injection he with h
      subst h
      exact ⟨rfl, Or.inl ⟨rfl, rfl⟩⟩
    · split at he
      · injection he with h
        subst h
        exact ⟨rfl, Or.inr ⟨rfl, rfl⟩⟩
      · simp at he
  · intro e he
    unfold checkTenantRateLimit at he
    split at he
    · injection he with h
      subst h
      exact ⟨rfl, rfl⟩
    · split at he
      · injection he with h
        subst h
        exact ⟨rfl, rfl⟩
      · simp at he

/-- Witness for the amended C8, applied to empty stores under a zero quota
so that both keyspaces reject. -/
theorem c8_amended_retry_after_witness :
    (minuteLimitErr.status = 429 ∧
      ((minuteLimitErr = minuteLimitErr ∧ minuteLimitErr.headers = [("Retry-After", "60")]) ∨
       (minuteLimitErr = hourLimitErr ∧ minuteLimitErr.headers = [("Retry-After", "3600")])))
    ∧ (tenantMinuteErr.status = 429 ∧ tenantMinuteErr.headers = []) := by
  have h := c8_amended_retry_after "8.8.8.8" "t1" ⟨0, 0⟩ 3662 []
  exact ⟨h.1 minuteLimitErr rfl, h.2 tenantMinuteErr rfl⟩

/-! ### Claim theorems: role authorization -/

/-- C9: the role gate cited by the claim cannot deliver the claimed 403.
Invoked through its declared default argument (the require_user function
object, with no Depends wrapper), role_checker raises AttributeError on
user.role, which surfaces as a 500 rather than the Forbidden of the claim;
the hierarchy comparison itself does implement owner 3, admin 2, user 1 and
would reject a user-role account at an admin gate with 403 and pass an
owner-role account everywhere, but no UserRecord ever reaches it through
the wiring of the source. -/
theorem c9_role_gate_unwirable :
    roleCheckerRuntime "admin" .defaultRequireUserFn = .error attributeErrorErr
    ∧ attributeErrorErr.status = 500
    ∧ attributeErrorErr.status ≠ 403
    ∧ roleHierarchy "owner" = 3 ∧ roleHierarchy "admin" = 2 ∧ roleHierarchy "user" = 1
    ∧ roleCheckerRuntime "admin" (.user ⟨"u2", "t1", "user", "active"⟩) =
        .error (roleForbiddenErr "admin")
    ∧ (roleForbiddenErr "admin").status = 403
    ∧ roleCheckerRuntime "admin" (.user ⟨"u3", "t1", "owner", "active"⟩) =
        .ok ⟨"u3", "t1", "owner", "active"⟩
    ∧ roleCheckerRuntime "user" (.user ⟨"u3", "t1", "owner", "active"⟩) =
        .ok ⟨"u3", "t1", "owner", "active"⟩
    ∧ roleCheckerRuntime "owner" (.user ⟨"u3", "t1", "owner", "active"⟩) =
        .ok ⟨"u3", "t1", "owner", "active"⟩ := by
  refine ⟨rfl, rfl, by decide, rfl, rfl, rfl, by decide, rfl, by decide, by decide, by decide⟩

/-! ### Claim theorems: tenant resolution -/

/-- C4 fails as stated: the rate limiter is the outermost middleware at
runtime, so an over-quota request to a non-exempt path under the suspended
tenant dead is rejected with 429, not with the claimed 403, even though the
resolver would have rejected it with 403: here the anonymous-tier minute
counter of the unknown ip key already sits at its threshold. -/
theorem c4_over_quota_not_forbidden :
    demoEnv.tenantBySubdomain "dead" = some ⟨"t-dead", "dead", "suspended", "free"⟩
    ∧ resolveTenantContext demoEnv reqDead = .error (inactiveTenantErr "suspended")
    ∧ (inactiveTenantErr "suspended").status = 403
    ∧ runtimePipeline demoEnv reqDead 3662 saturatedStore =
        ⟨.errorResp minuteLimitErr, saturatedStore, false⟩
    ∧ minuteLimitErr.status = 429 := by
  refine ⟨rfl, by decide, rfl, by decide, rfl⟩

/-- C4 amended: for a request whose host resolves to a non-onboarding
subdomain and whose path is not exempt from resolution, provided the rate
limiter (which runs first, on the anonymous tier keyed by the unknown ip of
the unset context) permits the request, an owning tenant with a non-active
status makes the pipeline return a 403 before the handler runs, whatever
token the request carries, and an unowned subdomain yields a 404 before the
handler runs; an over-quota request is instead rejected with a 429 by the
rate limiter, also before the handler runs and before resolution. -/
theorem c4_amended_inactive_tenant (env : Env) (req : Request) (t : Nat) (s : Store)
    (sub : String)
    (hsub : extractSubdomain (lowerStr req.host) = some sub)
    (hob : sub ≠ onboardingSubdomain)
    (hpath : exemptFromResolution req.path false = false) :
    (∀ s1 : Store, checkRateLimitState req emptyCtx t s = (s1, none) →
       (∀ tn : TenantRecord, env.tenantBySubdomain sub = some tn → tn.status ≠ "active" →
          runtimePipeline env req t s = ⟨.errorResp (inactiveTenantErr tn.status), s1, false⟩
          ∧ (inactiveTenantErr tn.status).status = 403)
       ∧ (env.tenantBySubdomain sub = none →
          runtimePipeline env req t s = ⟨.errorResp (tenantNotFoundErr sub), s1, false⟩
          ∧ (tenantNotFoundErr sub).status = 404))
    ∧ (∀ (s1 : Store) (e : HErr), checkRateLimitState req emptyCtx t s = (s1, some e) →
       runtimePipeline env req t s = ⟨.errorResp e, s1, false⟩ ∧ e.status = 429) := by
  have hobf : decide ((some sub : Option String) = some onboardingSubdomain) = false := by
    simp [hob]
  constructor
  · intro s1 hrl
    constructor
    · intro tn htn hst
      have hres : resolveTenantContext env req = .error (inactiveTenantErr tn.status) := by
        unfold resolveTenantContext
        simp only [hsub, hobf, hpath, Bool.false_eq_true, if_false]
        rw [if_neg hob, htn]
        simp [hst]
      refine ⟨?_, rfl⟩
      unfold runtimePipeline
      simp only [hrl, hres]
    · intro hnone
      have hres : resolveTenantContext env req = .error (tenantNotFoundErr sub) := by
        unfold resolveTenantContext
        simp only [hsub, hobf, hpath, Bool.false_eq_true, if_false]
        rw [if_neg hob, hnone]
      refine ⟨?_, rfl⟩
      unfold runtimePipeline
      simp only [hrl, hres]
  · intro s1 e hrl
    refine ⟨?_, checkRateLimitState_error_status hrl⟩
    unfold runtimePipeline
    simp only [hrl]

/-- Witness for the amended C4 at the suspended tenant dead (403) and the
unowned subdomain ghost (404) from the empty store, and at dead again from
the saturated store (429), with a valid bearer token on every request. -/
theorem c4_amended_inactive_tenant_witness :
    (runtimePipeline demoEnv reqDead 3662 [] =
       ⟨.errorResp (inactiveTenantErr "suspended"), ipPairStore "unknown" 3662 1, false⟩
     ∧ (inactiveTenantErr "suspended").status = 403)
    ∧ (runtimePipeline demoEnv reqGhost 3662 [] =
       ⟨.errorResp (tenantNotFoundErr "ghost"), ipPairStore "unknown" 3662 1, false⟩
     ∧ (tenantNotFoundErr "ghost").status = 404)
    ∧ (runtimePipeline demoEnv reqDead 3662 saturatedStore =
       ⟨.errorResp minuteLimitErr, saturatedStore, false⟩
     ∧ minuteLimitErr.status = 429) :=
  ⟨((c4_amended_inactive_tenant demoEnv reqDead 3662 [] "dead"
      (by decide) (by decide) (by decide)).1
      (ipPairStore "unknown" 3662 1) (by decide)).1
      ⟨"t-dead", "dead", "suspended", "free"⟩ rfl (by decide),
   ((c4_amended_inactive_tenant demoEnv reqGhost 3662 [] "ghost"
      (by decide) (by decide) (by decide)).1
      (ipPairStore "unknown" 3662 1) (by decide)).2 rfl,
   (c4_amended_inactive_tenant demoEnv reqDead 3662 saturatedStore "dead"
      (by decide) (by decide) (by decide)).2
      saturatedStore minuteLimitErr (by decide)⟩

/-! ### Claim theorems: authentication -/

/-- C1 fails as stated: the auth wrapper runs before tenant resolution at
runtime, with the empty-dict context, so on a request to acme carrying the
token bound to the foreign tenant tA the cross-tenant check is skipped, no
403 is signalled, the user is returned and attached to the request state,
and the handler runs with that cross-tenant identity, even though the
request then resolves to tenant t-acme differing from the tA claim. -/
theorem c1_cross_tenant_served_counterexample :
    demoEnv.verifyToken "tokA" = some ⟨"u1", some "tA"⟩
    ∧ resolveTenantContext demoEnv reqAcmeForeign = .ok ctxAcme
    ∧ ctxAcme.tenantId = some "t-acme"
    ∧ "tA" ≠ "t-acme"
    ∧ processAuthentication demoEnv reqAcmeForeign emptyCtx =
        .ok (some ⟨"u1", "t-acme", "admin", "active"⟩)
    ∧ runtimePipeline demoEnv reqAcmeForeign 3662 [] =
        ⟨.handled (some ⟨"u1", "t-acme", "admin", "active"⟩),
         ipPairStore "unknown" 3662 1, true⟩ := by
  refine ⟨rfl, by decide, rfl, by decide, by decide, by decide⟩

/-- C1 amended: process_authentication rejects a cross-tenant token with
403 Forbidden and returns no user exactly when the context it receives
carries the resolved tenant id; but the runtime auth wrapper invokes it
before resolution with the empty context, where the check is skipped, the
cross-tenant user is returned and attached, and the handler runs with that
identity, so the 403 can only come from handler-level dependencies that
invoke process_authentication again after resolution. -/
theorem c1_amended_cross_tenant (env : Env) (req : Request) (ctx : TenantContext)
    (h : String) (payload : TokenPayload) (u : UserRecord) (a b : String)
    (hpub : req.path ∉ publicPaths)
    (hhdr : req.authHeader = some h)
    (hbear : "Bearer ".toList.isPrefixOf h.toList = true)
    (hver : env.verifyToken (String.mk (h.toList.drop 7)) = some payload)
    (hA : payload.tenantId = some a)
    (huser : env.userById payload.sub = some u)
    (hll : env.lastLoginUpdateOk = true)
    (hob : ctx.isOnboarding = false)
    (hctx : ctx.tenantId = some b)
    (hbne : b ≠ "")
    (hab : a ≠ b) :
    (processAuthentication env req ctx = .error wrongTenantErr
     ∧ wrongTenantErr.status = 403
     ∧ authMiddlewareUser env req ctx = none)
    ∧ (processAuthentication env req emptyCtx = .ok (some u)
       ∧ authMiddlewareUser env req emptyCtx = some u)
    ∧ (∀ (t : Nat) (s s1 : Store) (ctx2 : TenantContext),
       checkRateLimitState req emptyCtx t s = (s1, none) →
       resolveTenantContext env req = .ok ctx2 →
       runtimePipeline env req t s = ⟨.handled (some u), s1, true⟩) := by
  have hmain : processAuthentication env req ctx = .error wrongTenantErr := by
    unfold processAuthentication
    rw [if_neg hpub, hob]
    simp only [Bool.false_eq_true, if_false, hhdr]
    rw [if_neg (by rw [hbear]; exact not_not_intro rfl)]
    simp only [hver, huser, hctx]
    rw [if_pos ⟨hbne, by rw [hA]; simp [hab]⟩]
  have hempty : processAuthentication env req emptyCtx = .ok (some u) := by
    unfold processAuthentication
    rw [if_neg hpub]
    simp only [emptyCtx, Bool.false_eq_true, if_false, hhdr]
    rw [if_neg (by rw [hbear]; exact not_not_intro rfl)]
    simp only [hver, huser, hll, if_true]
  have hemptyUser : authMiddlewareUser env req emptyCtx = some u := by
    unfold authMiddlewareUser
    rw [hempty]
  refine ⟨⟨hmain, rfl, by unfold authMiddlewareUser; rw [hmain]⟩,
    ⟨hempty, hemptyUser⟩, ?_⟩
  intro t s s1 ctx2 hrl hres
  unfold runtimePipeline
  simp only [hrl, hres, hemptyUser]

/-- Witness for the amended C1: the token bound to the foreign tenant tA is
rejected 403 at the acme-resolved context, accepted at the empty runtime
context, and the pipeline serves the handler with that user. -/
theorem c1_amended_cross_tenant_witness :
    (processAuthentication demoEnv reqAcmeForeign ctxAcme = .error wrongTenantErr
     ∧ wrongTenantErr.status = 403
     ∧ authMiddlewareUser demoEnv reqAcmeForeign ctxAcme = none)
    ∧ (processAuthentication demoEnv reqAcmeForeign emptyCtx =
         .ok (some ⟨"u1", "t-acme", "admin", "active"⟩)
       ∧ authMiddlewareUser demoEnv reqAcmeForeign emptyCtx =
         some ⟨"u1", "t-acme", "admin", "active"⟩)
    ∧ runtimePipeline demoEnv reqAcmeForeign 3662 [] =
        ⟨.handled (some ⟨"u1", "t-acme", "admin", "active"⟩),
         ipPairStore "unknown" 3662 1, true⟩ := by
  have hmain := c1_amended_cross_tenant demoEnv reqAcmeForeign ctxAcme
    "Bearer tokA" ⟨"u1", some "tA"⟩ ⟨"u1", "t-acme", "admin", "active"⟩ "tA" "t-acme"
    (by decide) rfl (by decide) (by decide) rfl (by decide) rfl rfl rfl
    (by decide) (by decide)
  exact ⟨hmain.1, hmain.2.1,
    hmain.2.2 3662 [] (ipPairStore "unknown" 3662 1) ctxAcme (by decide) (by decide)⟩

/-- C3 fails as stated: at the subdomain-availability path (a public
exception per the spec) with no Authorization header, process_authentication
does demand a token and signals 401, because the public-path set is matched
exactly and does not contain the parameterized path; and the 401 never
reaches the client as the response, because the auth middleware wrapper of
main.py catches it and the handler still runs with no user. -/
theorem c3_unauth_swallowed_counterexample :
    resolveTenantContext demoEnv reqValidateSub =
      .ok { subdomain := none, tenant := none, tenantId := none,
            isOnboarding := false, isApiRequest := true, ipAddress := "unknown" }
    ∧ processAuthentication demoEnv reqValidateSub
        { subdomain := none, tenant := none, tenantId := none,
          isOnboarding := false, isApiRequest := true, ipAddress := "unknown" } =
        .error authRequiredErr
    ∧ processAuthentication demoEnv reqValidateSub emptyCtx = .error authRequiredErr
    ∧ (runtimePipeline demoEnv reqValidateSub 3662 []).outcome = .handled none
    ∧ (runtimePipeline demoEnv reqValidateSub 3662 []).handlerRan = true := by
  refine ⟨by decide, by decide, by decide, by decide, by decide⟩

/-- C3 amended: process_authentication never demands a token on the paths of
the exact-match public set, and signals 401 Unauthorized for any other api
path without an Authorization header outside the onboarding flow; the
middleware wrapper swallows that 401 into a none user, so the 401 response
reaches the client only through handler-level auth dependencies. -/
theorem c3_amended_token_requirement (env : Env) (req : Request) (ctx : TenantContext) :
    (req.path ∈ publicPaths → processAuthentication env req ctx = .ok none)
    ∧ (req.path ∉ publicPaths → ctx.isOnboarding = false → req.authHeader = none →
       "/api/".toList.isPrefixOf req.path.toList = true →
       processAuthentication env req ctx = .error authRequiredErr
       ∧ authRequiredErr.status = 401
       ∧ authMiddlewareUser env req ctx = none) := by
  constructor
  · intro hpub
    unfold processAuthentication
    rw [if_pos hpub]
  · intro hpub hob hnone hapi
    have hmain : processAuthentication env req ctx = .error authRequiredErr := by
      unfold processAuthentication
      rw [if_neg hpub, hob]
      simp only [Bool.false_eq_true, if_false, hnone]
      rw [if_pos hapi]
    exact ⟨hmain, rfl, by unfold authMiddlewareUser; rw [hmain]⟩

/-- Witness for the amended C3: the health path never requires a token, and
a bare request to a protected api path is signalled 401 and swallowed. -/
theorem c3_amended_token_requirement_witness :
    processAuthentication demoEnv
      { host := "localhost", path := "/health", authHeader := none,
        xForwardedFor := none, xRealIp := none, clientHost := none }
      { subdomain := none, tenant := none, tenantId := none,
        isOnboarding := false, isApiRequest := false, ipAddress := "unknown" } = .ok none
    ∧ (processAuthentication demoEnv reqNoAuth
        { subdomain := none, tenant := none, tenantId := none,
          isOnboarding := false, isApiRequest := true, ipAddress := "unknown" } =
        .error authRequiredErr
       ∧ authRequiredErr.status = 401
       ∧ authMiddlewareUser demoEnv reqNoAuth
          { subdomain := none, tenant := none, tenantId := none,
            isOnboarding := false, isApiRequest := true, ipAddress := "unknown" } = none) :=
  ⟨(c3_amended_token_requirement demoEnv
      { host := "localhost", path := "/health", authHeader := none,
        xForwardedFor := none, xRealIp := none, clientHost := none }
      { subdomain := none, tenant := none, tenantId := none,
        isOnboarding := false, isApiRequest := false, ipAddress := "unknown" }).1 (by decide),
   (c3_amended_token_requirement demoEnv reqNoAuth
      { subdomain := none, tenant := none, tenantId := none,
        isOnboarding := false, isApiRequest := true, ipAddress := "unknown" }).2
     (by decide) rfl rfl (by decide)⟩

/-! ### Claim theorems: pipeline ordering -/

/-- C2 fails as stated, in both respects. The order is not Resolver,
Authenticator, RateLimiter: the rate limiter is outermost at runtime, so an
over-quota request to the suspended tenant dead is answered 429 by the rate
limiter although the resolver (the claimed first step, whose failure would
short-circuit the rate limiter) rejects that request with 403. And a
failing step does not always stop the pipeline: at a protected api path
with no Authorization header the authentication step signals 401, yet the
handler still runs with the user state none. -/
theorem c2_runtime_order_counterexample :
    resolveTenantContext demoEnv reqDead = .error (inactiveTenantErr "suspended")
    ∧ runtimePipeline demoEnv reqDead 3662 saturatedStore =
        ⟨.errorResp minuteLimitErr, saturatedStore, false⟩
    ∧ minuteLimitErr.status = 429
    ∧ processAuthentication demoEnv reqNoAuth emptyCtx = .error authRequiredErr
    ∧ runtimePipeline demoEnv reqNoAuth 3662 [] =
        ⟨.handled none, ipPairStore "unknown" 3662 1, true⟩ := by
  refine ⟨by decide, by decide, rfl, by decide, by decide⟩

/-- C2 amended: the app.middleware handlers execute in the reverse of their
registration order, rate limiter first, then the auth wrapper, then the
tenant resolver, then the handler, the two outer steps reading the not yet
resolved (empty) tenant context; a rate-limiter or resolver failure
short-circuits every later step and the handler never runs, but an
authenticator failure is caught by the wrapper, which sets the user state
to none and lets the resolver and the handler run. -/
theorem c2_amended_runtime_order (env : Env) (req : Request) (t : Nat) (s : Store) :
    (∀ (s1 : Store) (e : HErr), checkRateLimitState req emptyCtx t s = (s1, some e) →
       runtimePipeline env req t s = ⟨.errorResp e, s1, false⟩)
    ∧ (∀ (s1 : Store) (e : HErr), checkRateLimitState req emptyCtx t s = (s1, none) →
       resolveTenantContext env req = .error e →
       runtimePipeline env req t s = ⟨.errorResp e, s1, false⟩)
    ∧ (∀ (s1 : Store) (ctx : TenantContext) (e : HErr),
       checkRateLimitState req emptyCtx t s = (s1, none) →
       processAuthentication env req emptyCtx = .error e →
       resolveTenantContext env req = .ok ctx →
       runtimePipeline env req t s = ⟨.handled none, s1, true⟩) := by
  refine ⟨?_, ?_, ?_⟩
  · intro s1 e hrl
    unfold runtimePipeline
    simp only [hrl]
  · intro s1 e hrl hres
    unfold runtimePipeline
    simp only [hrl, hres]
  · intro s1 ctx e hrl hauth hres
    have huser : authMiddlewareUser env req emptyCtx = none := by
      unfold authMiddlewareUser
      rw [hauth]
    unfold runtimePipeline
    simp only [hrl, hres, huser]

/-- Witness for the amended C2: a rate-limiter rejection short-circuits the
suspended-tenant request, a resolver rejection short-circuits the request
from an idle store, and a swallowed authentication failure does not stop
the handler. -/
theorem c2_amended_runtime_order_witness :
    runtimePipeline demoEnv reqDead 3662 saturatedStore =
      ⟨.errorResp minuteLimitErr, saturatedStore, false⟩
    ∧ runtimePipeline demoEnv reqDead 3662 [] =
      ⟨.errorResp (inactiveTenantErr "suspended"), ipPairStore "unknown" 3662 1, false⟩
    ∧ runtimePipeline demoEnv reqNoAuth 3662 [] =
      ⟨.handled none, ipPairStore "unknown" 3662 1, true⟩ :=
  ⟨(c2_amended_runtime_order demoEnv reqDead 3662 saturatedStore).1
     saturatedStore minuteLimitErr (by decide),
   (c2_amended_runtime_order demoEnv reqDead 3662 []).2.1
     (ipPairStore "unknown" 3662 1) (inactiveTenantErr "suspended")
     (by decide) (by decide),
   (c2_amended_runtime_order demoEnv reqNoAuth 3662 []).2.2
     (ipPairStore "unknown" 3662 1)
     { subdomain := none, tenant := none, tenantId := none,
       isOnboarding := false, isApiRequest := true, ipAddress := "unknown" }
     authRequiredErr (by decide) (by decide) (by decide)⟩

/-- C7 fails on the code: with a valid token, an active user and a matching
tenant, a failing last-login UPDATE is caught by the blanket exception
handler of process_authentication and re-raised as 401 Invalid
authentication token, instead of being swallowed: the same request succeeds
with the authenticated user when the update succeeds, and fails without the
user when it does not. -/
theorem c7_lastlogin_failure_fails_request :
    processAuthentication demoEnv reqAcme ctxAcme =
      .ok (some ⟨"u1", "t-acme", "admin", "active"⟩)
    ∧ processAuthentication demoEnvNoLastLogin reqAcme ctxAcme =
      .error invalidTokenErr
    ∧ invalidTokenErr.status = 401
    ∧ authMiddlewareUser demoEnvNoLastLogin reqAcme ctxAcme = none := by
  refine ⟨by decide, by decide, rfl, by decide⟩

/-! ### Claim theorems: bet submission atomicity -/

/-- Bet validity only reads the categories of the database state, so the
inserts performed by earlier loop iterations do not affect it. -/
theorem validBet_bets_irrelevant (cs : List RaffleCategory) (bs1 bs2 : List BetRow)
    (tid : String) (b : BetCreate) :
    validBet ⟨cs, bs1⟩ tid b = validBet ⟨cs, bs2⟩ tid b := rfl

/-- When every bet of a list validates against the database, the transaction
loop inserts exactly one row per bet, in order. -/
theorem insertBetsLoop_all_valid (tid : String) (sub : BetSubmission) :
    ∀ (bs : List BetCreate) (db : RaffleDB),
      (∀ b ∈ bs, validBet db tid b = true) →
      insertBetsLoop tid sub bs db =
        .ok { db with bets := db.bets ++ bs.map (mkBetRow tid sub) } := by
  intro bs
  induction bs with
  | nil => intro db _; simp [insertBetsLoop]
  | cons b rest ih =>
    intro db hall
    have hb := hall b (by simp)
    cases hfc : findCategory db tid b.categoryId with
    | none =>
      simp only [validBet, hfc] at hb
      exact absurd hb (by simp)
    | some c =>
      simp only [validBet, hfc, Bool.and_eq_true, beq_iff_eq] at hb
      obtain ⟨hact, hamt⟩ := hb
      unfold insertBetsLoop
      simp only [hfc]
      rw [if_neg (not_not_intro hact), if_neg (not_not_intro hamt)]
      have hrest : ∀ b2 ∈ rest,
          validBet { db with bets := db.bets ++ [mkBetRow tid sub b] } tid b2 = true := by
        intro b2 hb2
        have hirr : validBet { db with bets := db.bets ++ [mkBetRow tid sub b] } tid b2 =
            validBet db tid b2 := rfl
        rw [hirr]
        exact hall b2 (by simp [hb2])
      rw [ih _ hrest]
      simp

/-- When some bet of a list fails validation against the database, the
transaction loop aborts with a 400 error. -/
theorem insertBetsLoop_some_invalid (tid : String) (sub : BetSubmission) :
    ∀ (bs : List BetCreate) (db : RaffleDB),
      (∃ b ∈ bs, validBet db tid b = false) →
      ∃ e, insertBetsLoop tid sub bs db = .error e ∧ e.status = 400 := by
  intro bs
  induction bs with
  | nil =>
    intro db h
    obtain ⟨b, hb, _⟩ := h
    simp at hb
  | cons b rest ih =>
    intro db h
    by_cases hval : validBet db tid b = true
    · obtain ⟨b2, hb2, hv2⟩ := h
      have hb2rest : b2 ∈ rest := by
        rcases List.mem_cons.mp hb2 with h2 | h2
        · subst h2; rw [hval] at hv2; cases hv2
        · exact h2
      cases hfc : findCategory db tid b.categoryId with
      | none =>
        simp only [validBet, hfc] at hval
        exact absurd hval (by simp)
      | some c =>
        simp only [validBet, hfc, Bool.and_eq_true, beq_iff_eq] at hval
        obtain ⟨hact, hamt⟩ := hval
        have hirr : validBet { db with bets := db.bets ++ [mkBetRow tid sub b] } tid b2 =
            validBet db tid b2 := rfl
        obtain ⟨e, he, hs⟩ := ih { db with bets := db.bets ++ [mkBetRow tid sub b] }
          ⟨b2, hb2rest, by rw [hirr]; exact hv2⟩
        refine ⟨e, ?_, hs⟩
        unfold insertBetsLoop
        simp only [hfc]
        rw [if_neg (not_not_intro hact), if_neg (not_not_intro hamt)]
        exact he
    · simp only [Bool.not_eq_true] at hval
      cases hfc : findCategory db tid b.categoryId with
      | none =>
        refine ⟨categoryNotFoundErr b.categoryId, ?_, rfl⟩
        unfold insertBetsLoop
        simp only [hfc]
      | some c =>
        simp only [validBet, hfc] at hval
        by_cases hact : c.isActive = true
        · have hamt : (b.amount == c.betPrice) = false := by
            rw [hact] at hval
            simpa using hval
          have hamt2 : b.amount ≠ c.betPrice := by simpa using hamt
          refine ⟨amountMismatchErr, ?_, rfl⟩
          unfold insertBetsLoop
          simp only [hfc]
          rw [if_neg (not_not_intro hact), if_pos hamt2]
        · refine ⟨categoryInactiveErr c.categoryName, ?_, rfl⟩
          unfold insertBetsLoop
          simp only [hfc]
          rw [if_pos hact]

/-- C6: bet submission is atomic: when every submitted bet references an
existing active category at the right price, every row is inserted and
committed; when any bet fails validation, the transaction rolls back, the
database is unchanged (zero rows committed) and the reported error is a 400
BadRequest. -/
theorem c6_submit_bets_atomic (tid : String) (sub : BetSubmission) (db : RaffleDB) :
    ((∀ b ∈ sub.bets, validBet db tid b = true) →
       submitBets tid sub db =
         ({ db with bets := db.bets ++ sub.bets.map (mkBetRow tid sub) }, none))
    ∧ ((∃ b ∈ sub.bets, validBet db tid b = false) →
       ∃ e, submitBets tid sub db = (db, some e) ∧ e.status = 400) := by
  constructor
  · intro hall
    unfold submitBets
    rw [insertBetsLoop_all_valid tid sub sub.bets db hall]
  · intro hex
    obtain ⟨e, he, hs⟩ := insertBetsLoop_some_invalid tid sub sub.bets db hex
    refine ⟨e, ?_, hs⟩
    unfold submitBets
    rw [he]

/-- Witness for C6: three valid bets of 5 all commit; a submission touching
the inactive category commits zero rows and reports a 400. -/
theorem c6_submit_bets_atomic_witness :
    submitBets "t-acme" demoSubValid demoDB =
      ({ demoDB with
          bets := demoDB.bets ++ demoSubValid.bets.map (mkBetRow "t-acme" demoSubValid) }, none)
    ∧ ∃ e, submitBets "t-acme" demoSubInvalid demoDB = (demoDB, some e) ∧ e.status = 400 :=
  ⟨(c6_submit_bets_atomic "t-acme" demoSubValid demoDB).1 (by decide),
   (c6_submit_bets_atomic "t-acme" demoSubInvalid demoDB).2 (by decide)⟩

end BabyRaffle
